import Mathlib

/-!
Verification of the reference-resolving JSON-to-HTML renderer in
`code.py` (resolve_reference, json_to_html, process_text_item,
process_table_item, process_picture_item, escape_html).

The document model is a shallow embedding of the JSON values the
renderer consumes.  Python dictionaries are association lists with
string keys (JSON objects have unique string keys), JSON numbers are
modelled as integers (every numeric field the renderer consults —
row_span, col_span — is integral), and Python exceptions are modelled
with an explicit error type threaded through `Except`.
-/

namespace ConvDocling

/-- A JSON value, as produced by `json.load` from the Docling export. -/
inductive Json : Type where
  | null : Json
  | bool : Bool → Json
  | num : Int → Json
  | str : String → Json
  | arr : List Json → Json
  | obj : List (String × Json) → Json

/-- The Python exceptions the renderer can raise: `KeyError` and
`IndexError` are the two caught by `json_to_html`'s dispatch loop;
`TypeError` and `AttributeError` are raised by ill-shaped subscripts
and missing methods and are not caught anywhere in the source. -/
inductive PyErr : Type where
  | keyError : PyErr
  | indexError : PyErr
  | typeError : PyErr
  | attributeError : PyErr
deriving DecidableEq, Repr

/-- Key lookup in a Python dict modelled as an association list
(JSON object keys are unique, so first-match lookup is dict lookup). -/
def lookupKey : List (String × Json) → String → Option Json
  | [], _ => none
  | (k, v) :: rest, key => if k = key then some v else lookupKey rest key

/-- Python truthiness of a JSON value (`if x:` / `filter(None, …)`). -/
def pyTruthy : Json → Bool
  | .null => false
  | .bool b => b
  | .num n => n != 0
  | .str s => s != ""
  | .arr xs => !xs.isEmpty
  | .obj kvs => !kvs.isEmpty

/-- Python `==` between a JSON value and a string literal: only equal
strings compare equal; values of other types compare unequal (never an
error). -/
def pyEqStr (j : Json) (s : String) : Bool :=
  match j with
  | .str t => t == s
  | _ => false

/-- Does a JSON array contain a given string, element-wise Python `==`. -/
def arrContainsStr (key : String) (xs : List Json) : Bool :=
  xs.any (fun x => pyEqStr x key)

/-- Is `pat` a contiguous substring of `s` (Python `pat in s` on strings). -/
def listIsInfix (pat : List Char) : List Char → Bool
  | [] => pat.isEmpty
  | c :: rest => pat.isPrefixOf (c :: rest) || listIsInfix pat rest

/-- Python `key in value` for the containers the renderer touches:
key membership for dicts, element membership for lists, substring test
for strings; `TypeError` on non-containers. -/
def pyContains (key : String) : Json → Except PyErr Bool
  | .obj kvs => .ok (lookupKey kvs key).isSome
  | .arr xs => .ok (arrContainsStr key xs)
  | .str s => .ok (listIsInfix key.data s.data)
  | _ => .error .typeError

/-- Python `value[key]` with a string subscript: dict lookup
(`KeyError` when absent); `TypeError` on every other type (a list or a
string subscripted with a string raises `TypeError`). -/
def pySubscriptStr (j : Json) (key : String) : Except PyErr Json :=
  match j with
  | .obj kvs =>
    match lookupKey kvs key with
    | some v => .ok v
    | none => .error .keyError
  | _ => .error .typeError

/-- Python `value.get(key, default)`: dict lookup with a default;
`AttributeError` when the receiver is not a dict. -/
def pyGet (j : Json) (key : String) (default : Json) : Except PyErr Json :=
  match j with
  | .obj kvs => .ok ((lookupKey kvs key).getD default)
  | _ => .error .attributeError

/-- Python `for x in value`: a list yields its elements, a dict its
keys, a string its one-character substrings; `TypeError` otherwise. -/
def pyIter : Json → Except PyErr (List Json)
  | .arr xs => .ok xs
  | .obj kvs => .ok (kvs.map (fun kv => Json.str kv.1))
  | .str s => .ok (s.data.map (fun c => Json.str (String.mk [c])))
  | _ => .error .typeError

/-- Whitespace characters removed by Python `str.strip()` (the ASCII
ones; the renderer's inputs contain no exotic Unicode whitespace). -/
def pyIsSpace (c : Char) : Bool :=
  c == ' ' || c == '\t' || c == '\n' || c == '\r' || c.toNat == 11 || c.toNat == 12

/-- Python `str.strip()` on the character list of a string. -/
def pyStripL (l : List Char) : List Char :=
  ((l.dropWhile pyIsSpace).reverse.dropWhile pyIsSpace).reverse

/-- Python `str.strip()`. -/
def pyStrip (s : String) : String :=
  String.mk (pyStripL s.data)

/-- Python `value.strip()`: defined on strings only; `AttributeError`
on every other JSON value (including `None`). -/
def pyStripJ : Json → Except PyErr String
  | .str s => .ok (pyStrip s)
  | _ => .error .attributeError

mutual

/-- Python `repr()`, as far as the renderer can observe it.  String
repr is approximated as plain single-quoting (the renderer never
formats a container or a quoted string into its output on the inputs
any claim exercises; only scalar `str()` results ever reach HTML). -/
def pyRepr : Json → String
  | .null => "None"
  | .bool true => "True"
  | .bool false => "False"
  | .num n => toString n
  | .str s => "\x27" ++ s ++ "\x27"
  | .arr xs => "[" ++ pyReprElems xs ++ "]"
  | .obj kvs => "\x7b" ++ pyReprFields kvs ++ "\x7d"

/-- Comma-separated reprs of list elements. -/
def pyReprElems : List Json → String
  | [] => ""
  | [x] => pyRepr x
  | x :: rest => pyRepr x ++ ", " ++ pyReprElems rest

/-- Comma-separated `key: value` reprs of dict entries. -/
def pyReprFields : List (String × Json) → String
  | [] => ""
  | [(k, v)] => "\x27" ++ k ++ "\x27: " ++ pyRepr v
  | (k, v) :: rest => "\x27" ++ k ++ "\x27: " ++ pyRepr v ++ ", " ++ pyReprFields rest

end

/-- Python `str()` of a JSON value (used by f-string interpolation):
a string is taken verbatim, everything else falls back to repr. -/
def pyStr : Json → String
  | .str s => s
  | j => pyRepr j

/-- Python `n > 1` for a JSON value against the integer 1: integers
compare numerically, booleans as 0/1; every other operand raises
`TypeError` (Python 3 forbids ordering across unrelated types). -/
def pyGtOne : Json → Except PyErr Bool
  | .num n => .ok (decide (1 < n))
  | .bool b => .ok (decide (1 < (if b then (1 : Int) else 0)))
  | _ => .error .typeError

/-- `ref_string.replace('#/', '')`: one left-to-right pass deleting
each occurrence of `#/`; text already emitted is not rescanned. -/
def stripHS : List Char → List Char
  | [] => []
  | [c] => [c]
  | c :: d :: rest =>
    if c = '#' ∧ d = '/' then stripHS rest
    else c :: stripHS (d :: rest)

/-- Python `s.split('/')` on the character list of a string. -/
def splitOnSlash : List Char → List (List Char)
  | [] => [[]]
  | c :: rest =>
    if c = '/' then [] :: splitOnSlash rest
    else
      match splitOnSlash rest with
      | [] => [[c]]
      | w :: ws => (c :: w) :: ws

/-- Python `part.isdigit()` restricted to ASCII digits. -/
def pyIsDigit (l : List Char) : Bool :=
  !l.isEmpty && l.all (fun c => '0' ≤ c && c ≤ '9')

/-- `int(part)` for a string of ASCII digits. -/
def digitsToNat (l : List Char) : Nat :=
  l.foldl (fun acc c => acc * 10 + (c.toNat - 48)) 0

/-- One step of the resolver loop: `current[int(part)]` when the
segment is all digits (list indexing with `IndexError` out of bounds,
`KeyError` against a string-keyed dict, a one-character string from a
string, `TypeError` otherwise), else `current[part]` (dict lookup with
`KeyError`, `TypeError` against any non-dict). -/
def navStep (current : Json) (part : List Char) : Except PyErr Json :=
  if pyIsDigit part then
    match current with
    | .arr xs =>
      match xs.get? (digitsToNat part) with
      | some v => .ok v
      | none => .error .indexError
    | .str s =>
      match s.data.get? (digitsToNat part) with
      | some c => .ok (.str (String.mk [c]))
      | none => .error .indexError
    | .obj _ => .error .keyError
    | _ => .error .typeError
  else
    match current with
    | .obj kvs =>
      match lookupKey kvs (String.mk part) with
      | some v => .ok v
      | none => .error .keyError
    | _ => .error .typeError

/-- `resolve_reference(ref_string, json_content)` from the source:
strip `#/` occurrences, split on `/`, then walk the document. -/
def resolve_reference (ref_string : String) (json_content : Json) : Except PyErr Json :=
  (splitOnSlash (stripHS ref_string.data)).foldlM navStep json_content

/-- Replace every occurrence of the single character `c` by the string
`repl` (Python `str.replace` with a one-character pattern). -/
def replaceChar (c : Char) (repl : List Char) : List Char → List Char
  | [] => []
  | x :: xs => (if x = c then repl else [x]) ++ replaceChar c repl xs

/-- `escape_html(text)` from the source: the five replacements applied
in the source's order — `&`, then `<`, `>`, `"`, `'`.  (The source's
non-string coercion `str(text)` is `pyStr`; every renderer call site
passes a string, on which `str` is the identity.) -/
def escape_html (text : String) : String :=
  String.mk
    (replaceChar '\x27' "&#x27;".data
      (replaceChar '\"' "&quot;".data
        (replaceChar '>' "&gt;".data
          (replaceChar '<' "&lt;".data
            (replaceChar '&' "&amp;".data text.data)))))

/-- The `italic` / `underline` / `strikethrough` chain of
`process_text_item` ("Apply other formatting"): at most one wrapping,
first truthy flag wins, the text is HTML-escaped in every branch. -/
def applyEmphasis (formatting : Json) (ts : String) : Except PyErr String :=
  match pyGet formatting "italic" Json.null with
  | .error e => .error e
  | .ok it =>
    if pyTruthy it then .ok ("<em>" ++ escape_html ts ++ "</em>")
    else
      match pyGet formatting "underline" Json.null with
      | .error e => .error e
      | .ok un =>
        if pyTruthy un then .ok ("<u>" ++ escape_html ts ++ "</u>")
        else
          match pyGet formatting "strikethrough" Json.null with
          | .error e => .error e
          | .ok st =>
            if pyTruthy st then .ok ("<del>" ++ escape_html ts ++ "</del>")
            else .ok (escape_html ts)

/-- `process_text_item(text_item)` from the source, with the source's
evaluation order: fetch and strip `text`, return `''` when empty,
fetch `formatting` and `label`, then branch on `bold` — long bold text
becomes `<h2>` (after the emphasis chain, which the source still
applies there), short bold text returns `<p><strong>…</strong></p>`
immediately, and the non-bold path picks `<h1>`/`<h3>`/`<p>` by label. -/
def process_text_item (text_item : Json) : Except PyErr String :=
  match pyGet text_item "text" (Json.str "") with
  | .error e => .error e
  | .ok tv =>
    match pyStripJ tv with
    | .error e => .error e
    | .ok ts =>
      if ts = "" then .ok ""
      else
        match pyGet text_item "formatting" (Json.obj []) with
        | .error e => .error e
        | .ok formatting =>
          match pyGet text_item "label" (Json.str "paragraph") with
          | .error e => .error e
          | .ok label =>
            match pyGet formatting "bold" Json.null with
            | .error e => .error e
            | .ok bold =>
              if pyTruthy bold then
                if 50 < ts.length then
                  match applyEmphasis formatting ts with
                  | .error e => .error e
                  | .ok inner => .ok ("<h2>" ++ inner ++ "</h2>")
                else .ok ("<p><strong>" ++ escape_html ts ++ "</strong></p>")
              else
                match applyEmphasis formatting ts with
                | .error e => .error e
                | .ok inner =>
                  if pyEqStr label "title" then .ok ("<h1>" ++ inner ++ "</h1>")
                  else if pyEqStr label "heading" then .ok ("<h3>" ++ inner ++ "</h3>")
                  else .ok ("<p>" ++ inner ++ "</p>")

/-- One cell of the table loop body in `process_table_item`: strip and
escape the text, pick `th`/`td` by the header flags, and append
`rowspan`/`colspan` attributes exactly when the span exceeds 1,
rowspan first. -/
def renderCell (cell : Json) : Except PyErr String :=
  match pyGet cell "text" (Json.str "") with
  | .error e => .error e
  | .ok tv =>
    match pyStripJ tv with
    | .error e => .error e
    | .ok cell_text =>
      match pyGet cell "column_header" (Json.bool false) with
      | .error e => .error e
      | .ok ch =>
        match pyGet cell "row_header" (Json.bool false) with
        | .error e => .error e
        | .ok rh =>
          let tag := if pyTruthy ch || pyTruthy rh then "th" else "td"
          match pyGet cell "row_span" (Json.num 1) with
          | .error e => .error e
          | .ok row_span =>
            match pyGet cell "col_span" (Json.num 1) with
            | .error e => .error e
            | .ok col_span =>
              match pyGtOne row_span with
              | .error e => .error e
              | .ok rgt =>
                match pyGtOne col_span with
                | .error e => .error e
                | .ok cgt =>
                  let span_attrs :=
                    (if rgt then " rowspan=\"" ++ pyStr row_span ++ "\"" else "")
                      ++ (if cgt then " colspan=\"" ++ pyStr col_span ++ "\"" else "")
                  .ok ("    <" ++ tag ++ span_attrs ++ ">"
                        ++ escape_html cell_text ++ "</" ++ tag ++ ">")

/-- One row of the table loop: `'  <tr>'`, the cell lines, `'  </tr>'`. -/
def renderRow (row : Json) : Except PyErr (List String) :=
  match pyIter row with
  | .error e => .error e
  | .ok cells =>
    match cells.mapM renderCell with
    | .error e => .error e
    | .ok cellLines => .ok ("  <tr>" :: cellLines ++ ["  </tr>"])

/-- `process_table_item(table_item)` from the source: empty string
when `data`/`grid` is missing or the grid is falsy, otherwise the
newline-joined `<table>` lines. -/
def process_table_item (table_item : Json) : Except PyErr String :=
  match pyContains "data" table_item with
  | .error e => .error e
  | .ok hasData =>
    if !hasData then .ok ""
    else
      match pySubscriptStr table_item "data" with
      | .error e => .error e
      | .ok data =>
        match pyContains "grid" data with
        | .error e => .error e
        | .ok hasGrid =>
          if !hasGrid then .ok ""
          else
            match pySubscriptStr data "grid" with
            | .error e => .error e
            | .ok grid =>
              if !pyTruthy grid then .ok ""
              else
                match pyIter grid with
                | .error e => .error e
                | .ok rows =>
                  match rows.mapM renderRow with
                  | .error e => .error e
                  | .ok rowLines =>
                    .ok (String.intercalate "\n"
                      ("<table>" :: rowLines.flatten ++ ["</table>"]))

/-- `process_picture_item(picture_item)` from the source: a styled
placeholder `div` when the node has no `data` payload, otherwise an
`<img>` whose `src` is the base64 data URI built from the declared
format (default `png`) and the payload. -/
def process_picture_item (picture_item : Json) : Except PyErr String :=
  match pyContains "data" picture_item with
  | .error e => .error e
  | .ok hasData =>
    if !hasData then .ok "<div class=\"image-placeholder\">[Missing Image]</div>"
    else
      match pySubscriptStr picture_item "data" with
      | .error e => .error e
      | .ok img_data =>
        match pyGet picture_item "format" (Json.str "png") with
        | .error e => .error e
        | .ok img_format =>
          .ok ("<img src=\"data:image/" ++ pyStr img_format ++ ";base64,"
                ++ pyStr img_data
                ++ "\" alt=\"Embedded Image\" style=\"max-width:100%; height:auto; margin:10px 0;\" />")

/-- The body of the `try` block in `json_to_html`'s loop: resolve the
reference (the `.replace` call inside `resolve_reference` raises
`AttributeError` on a non-string ref), then dispatch on the pointer
prefix; an unrecognized prefix appends nothing (`none`). -/
def tryDispatch (doc : Json) (refJ : Json) : Except PyErr (Option String) :=
  match refJ with
  | .str refS =>
    match resolve_reference refS doc with
    | .error e => .error e
    | .ok item =>
      if "#/texts/".isPrefixOf refS then
        match process_text_item item with
        | .error e => .error e
        | .ok f => .ok (some f)
      else if "#/tables/".isPrefixOf refS then
        match process_table_item item with
        | .error e => .error e
        | .ok f => .ok (some f)
      else if "#/pictures/".isPrefixOf refS then
        match process_picture_item item with
        | .error e => .error e
        | .ok f => .ok (some f)
      else .ok none
  | _ => .error .attributeError

/-- One iteration of `json_to_html`'s loop over `body.children`: skip
a child without `'$ref'`, fetch the ref, and run the `try` block; only
`KeyError` and `IndexError` are caught (the `except` clause of the
source), turning the entry into a skip — every other error
propagates. -/
def childFragment (doc child : Json) : Except PyErr (Option String) :=
  match pyContains "$ref" child with
  | .error e => .error e
  | .ok hasRef =>
    if hasRef then
      match pySubscriptStr child "$ref" with
      | .error e => .error e
      | .ok refJ =>
        match tryDispatch doc refJ with
        | .error .keyError => .ok none
        | .error .indexError => .ok none
        | .error e => .error e
        | .ok r => .ok r
    else .ok none

/-- The loop of `json_to_html`, accumulating `html_parts` by
appending, exactly as the Python `for` loop does. -/
def bodyLoop (doc : Json) : List Json → List String → Except PyErr (List String)
  | [], acc => .ok acc
  | child :: rest, acc =>
    match childFragment doc child with
    | .error e => .error e
    | .ok none => bodyLoop doc rest acc
    | .ok (some s) => bodyLoop doc rest (acc ++ [s])

/-- The body-extraction conditionals of `json_to_html`: the children
list when `'body' in json_content and 'children' in
json_content['body']` holds, the empty list when either membership
test fails, any error otherwise. -/
def bodyChildren (doc : Json) : Except PyErr (List Json) :=
  match pyContains "body" doc with
  | .error e => .error e
  | .ok hasBody =>
    if hasBody then
      match pySubscriptStr doc "body" with
      | .error e => .error e
      | .ok body =>
        match pyContains "children" body with
        | .error e => .error e
        | .ok hasCh =>
          if hasCh then
            match pySubscriptStr body "children" with
            | .error e => .error e
            | .ok chJ => pyIter chJ
          else .ok []
    else .ok []

/-- `json_to_html(json_content)` from the source: walk the body
children accumulating fragments, drop falsy (empty) fragments, and
join with a single newline. -/
def json_to_html (json_content : Json) : Except PyErr String :=
  match bodyChildren json_content with
  | .error e => .error e
  | .ok children =>
    match bodyLoop json_content children [] with
    | .error e => .error e
    | .ok parts =>
      .ok (String.intercalate "\n" (parts.filter (fun s => !s.isEmpty)))

/-- Specification-style fragment list, following the spec's words
("collect each dispatch's returned fragment … preserving body order"):
the per-child fragments in children order, built by direct recursion
rather than by the source loop's accumulator.  Compared against
`bodyLoop` to settle the order-preservation claim. -/
def bodyFragmentsSpec (doc : Json) : List Json → Except PyErr (List String)
  | [] => .ok []
  | child :: rest =>
    match childFragment doc child with
    | .error e => .error e
    | .ok none => bodyFragmentsSpec doc rest
    | .ok (some s) =>
      match bodyFragmentsSpec doc rest with
      | .error e => .error e
      | .ok others => .ok (s :: others)

/-- The spec-side counterpart of `json_to_html` up to joining: the
in-order fragment list of the document's body. -/
def bodyFragments (doc : Json) : Except PyErr (List String) :=
  match bodyChildren doc with
  | .error e => .error e
  | .ok children => bodyFragmentsSpec doc children

/-! ### Helper lemmas -/

theorem not_mem_replaceChar_self (c : Char) (repl : List Char) (h : c ∉ repl)
    (l : List Char) : c ∉ replaceChar c repl l := by
  induction l with
  | nil => simp [replaceChar]
  | cons x xs ih =>
    by_cases hx : x = c
    · simp [replaceChar, hx, h, ih]
    · simp [replaceChar, hx, Ne.symm hx, ih]

theorem not_mem_replaceChar (d c : Char) (repl : List Char) (l : List Char)
    (hrepl : d ∉ repl) (hl : d ∉ l) : d ∉ replaceChar c repl l := by
  induction l with
  | nil => simp [replaceChar]
  | cons x xs ih =>
    have hx : d ≠ x := fun hh => hl (hh ▸ List.mem_cons_self x xs)
    have hxs : d ∉ xs := fun hh => hl (List.mem_cons_of_mem x hh)
    by_cases hc : x = c
    · simp [replaceChar, hc, hrepl, ih hxs]
    · simp [replaceChar, hc, hx, ih hxs]

theorem stripHS_hashslash (l : List Char) : stripHS ('#' :: '/' :: l) = stripHS l := by
  simp [stripHS]

theorem stripHS_cons2 (c d : Char) (l : List Char) (h : ¬(c = '#' ∧ d = '/')) :
    stripHS (c :: d :: l) = c :: stripHS (d :: l) := by
  simp [stripHS, h]

theorem stripHS_cons_of (c : Char) (l : List Char)
    (h : c ≠ '#' ∨ l.head? ≠ some '/') : stripHS (c :: l) = c :: stripHS l := by
  match l with
  | [] => rfl
  | d :: rest =>
    refine stripHS_cons2 c d rest fun hcd => ?_
    rcases h with h | h
    · exact h hcd.1
    · exact h (by simp [hcd.2])

theorem stripHS_mid (b : List Char) : ∀ (n : Nat) (a : List Char), a.length ≤ n →
    (a.getLast? ≠ some '#' ∨ b.head? ≠ some '/') →
    stripHS (a ++ '#' :: '/' :: b) = stripHS (a ++ b) := by
  intro n
  induction n with
  | zero =>
    intro a ha _
    have hnil : a = [] := List.eq_nil_of_length_eq_zero (Nat.le_zero.mp ha)
    subst hnil
    simpa using stripHS_hashslash b
  | succ n ih =>
    intro a ha h
    match a with
    | [] => simpa using stripHS_hashslash b
    | [c] =>
      show stripHS (c :: '#' :: '/' :: b) = stripHS (c :: b)
      rw [stripHS_cons_of c ('#' :: '/' :: b) (Or.inr (by simp))]
      rw [stripHS_cons_of c b (by simpa using h)]
      rw [stripHS_hashslash]
    | c :: d :: rest =>
      by_cases hcd : c = '#' ∧ d = '/'
      · obtain ⟨hc, hd⟩ := hcd
        subst hc; subst hd
        show stripHS ('#' :: '/' :: (rest ++ '#' :: '/' :: b))
            = stripHS ('#' :: '/' :: (rest ++ b))
        rw [stripHS_hashslash, stripHS_hashslash]
        refine ih rest ?_ ?_
        · simp at ha; omega
        · match rest with
          | [] => exact Or.inl (by simp)
          | r :: rs =>
            rcases h with h | h
            · exact Or.inl (by rwa [List.getLast?_cons_cons, List.getLast?_cons_cons] at h)
            · exact Or.inr h
      · show stripHS (c :: d :: (rest ++ '#' :: '/' :: b))
            = stripHS (c :: d :: (rest ++ b))
        rw [stripHS_cons2 c d _ hcd, stripHS_cons2 c d _ hcd]
        have hgoal : stripHS ((d :: rest) ++ '#' :: '/' :: b) = stripHS ((d :: rest) ++ b) := by
          refine ih (d :: rest) ?_ ?_
          · simp at ha ⊢; omega
          · rcases h with h | h
            · exact Or.inl (by rwa [List.getLast?_cons_cons] at h)
            · exact Or.inr h
        simpa using hgoal

/-! ### Claim C5 -/

/-- C5: `escape_html` applies the five replacements in the source's
order (`&`, `<`, `>`, `"`, `'` — this is its definition above), and as
a consequence its result never contains a raw `<`, `>`, `"`, or `'`
character, for every input string. -/
theorem escape_html_no_raw_specials (s : String) :
    '<' ∉ (escape_html s).data ∧ '>' ∉ (escape_html s).data ∧
    '\"' ∉ (escape_html s).data ∧ '\x27' ∉ (escape_html s).data := by
  have hlt : '<' ∉ replaceChar '<' "&lt;".data (replaceChar '&' "&amp;".data s.data) :=
    not_mem_replaceChar_self _ _ (by decide) _
  have hgt : '>' ∉ replaceChar '>' "&gt;".data
      (replaceChar '<' "&lt;".data (replaceChar '&' "&amp;".data s.data)) :=
    not_mem_replaceChar_self _ _ (by decide) _
  have hq : '\"' ∉ replaceChar '\"' "&quot;".data (replaceChar '>' "&gt;".data
      (replaceChar '<' "&lt;".data (replaceChar '&' "&amp;".data s.data))) :=
    not_mem_replaceChar_self _ _ (by decide) _
  refine ⟨?_, ?_, ?_, ?_⟩
  · exact not_mem_replaceChar _ _ _ _ (by decide)
      (not_mem_replaceChar _ _ _ _ (by decide)
        (not_mem_replaceChar _ _ _ _ (by decide) hlt))
  · exact not_mem_replaceChar _ _ _ _ (by decide)
      (not_mem_replaceChar _ _ _ _ (by decide) hgt)
  · exact not_mem_replaceChar _ _ _ _ (by decide) hq
  · exact not_mem_replaceChar_self _ _ (by decide) _

/-! ### Claim C9 -/

/-- C9 as stated is false: the pointer `##//x` has `#/` embedded
mid-string (at index 1); deleting that substring yields `#/x`, but the
two pointers resolve differently, because the single replacement pass
of the source leaves behind the freshly formed `#/` while
`resolve_reference` applied to the shortened pointer strips it. -/
theorem resolve_reference_mid_counterexample :
    resolve_reference "##//x" (Json.obj [("x", Json.num 1)]) = .error .keyError ∧
    resolve_reference "#/x" (Json.obj [("x", Json.num 1)]) = .ok (Json.num 1) :=
  ⟨rfl, rfl⟩

/-- C9 amended: `resolve_reference` deletes the occurrences of `#/` in
a single left-to-right pass (never rescanning text it already
emitted), so prepending `#/` to any pointer never changes resolution,
and an embedded `#/` resolves as if absent provided its removal does
not create a fresh `#/` occurrence (i.e. unless the preceding
character is `#` and the following one is `/`). -/
theorem resolve_reference_strip_props :
    (∀ (s : String) (d : Json), resolve_reference ("#/" ++ s) d = resolve_reference s d) ∧
    (∀ (pre post : String) (d : Json),
      (pre.data.getLast? ≠ some '#' ∨ post.data.head? ≠ some '/') →
      resolve_reference (pre ++ "#/" ++ post) d = resolve_reference (pre ++ post) d) := by
  constructor
  · intro s d
    unfold resolve_reference
    rw [String.data_append]
    rw [show ("#/".data ++ s.data) = '#' :: '/' :: s.data from rfl]
    rw [stripHS_hashslash]
  · intro pre post d h
    unfold resolve_reference
    rw [String.data_append, String.data_append, String.data_append]
    rw [List.append_assoc]
    rw [show ("#/".data ++ post.data) = '#' :: '/' :: post.data from rfl]
    rw [stripHS_mid post.data pre.data.length pre.data (Nat.le_refl _) h]

/-- Witness for the amended C9, at the pointer `texts#//0` (an
embedded `#/` whose removal creates no new occurrence): both halves of
the theorem are applied at concrete inputs. -/
theorem resolve_reference_strip_props_witness :
    resolve_reference "#/texts/0" (Json.obj [("texts", Json.arr [Json.str "a"])])
      = resolve_reference "texts/0" (Json.obj [("texts", Json.arr [Json.str "a"])]) ∧
    resolve_reference "texts#//0" (Json.obj [("texts", Json.arr [Json.str "a"])])
      = resolve_reference "texts/0" (Json.obj [("texts", Json.arr [Json.str "a"])]) :=
  ⟨resolve_reference_strip_props.1 "texts/0" _,
   resolve_reference_strip_props.2 "texts" "/0" _ (Or.inl (by decide))⟩

/-! ### Text renderer lemmas and claims C2, C3 -/

theorem applyEmphasis_obj_ok (fkvs : List (String × Json)) (ts : String) :
    ∃ inner, applyEmphasis (Json.obj fkvs) ts = .ok inner := by
  unfold applyEmphasis
  simp only [pyGet]
  repeat' split
  all_goals exact ⟨_, rfl⟩

theorem applyEmphasis_falsy (fkvs : List (String × Json)) (ts : String)
    (hi : pyTruthy ((lookupKey fkvs "italic").getD Json.null) = false)
    (hu : pyTruthy ((lookupKey fkvs "underline").getD Json.null) = false)
    (hs : pyTruthy ((lookupKey fkvs "strikethrough").getD Json.null) = false) :
    applyEmphasis (Json.obj fkvs) ts = .ok (escape_html ts) := by
  simp [applyEmphasis, pyGet, hi, hu, hs]

set_option maxHeartbeats 2000000 in
/-- C2 is false as stated: a bold text node of 51 characters whose
`italic` flag is set renders as `<h2><em>…</em></h2>`, not as
`<h2>` around the bare escaped text — the source still runs the
emphasis chain inside the long-bold heading branch. -/
theorem process_text_item_long_bold_counterexample :
    process_text_item (Json.obj [("text", Json.str (String.mk (List.replicate 51 'a'))),
        ("formatting", Json.obj [("bold", Json.bool true), ("italic", Json.bool true)])])
      = .ok ("<h2><em>" ++ String.mk (List.replicate 51 'a') ++ "</em></h2>") ∧
    ("<h2><em>" ++ String.mk (List.replicate 51 'a') ++ "</em></h2>")
      ≠ ("<h2>" ++ escape_html (String.mk (List.replicate 51 'a')) ++ "</h2>") :=
  ⟨rfl, by decide⟩

/-- C2 amended: for every text node whose trimmed text is non-empty,
marked bold, longer than 50 characters, and whose `italic`,
`underline` and `strikethrough` flags are all falsy, the result is
exactly `<h2>` ++ escaped trimmed text ++ `</h2>`, regardless of the
label; when one of those emphasis flags is truthy the corresponding
wrapping is applied inside the `<h2>` as well. -/
theorem process_text_item_long_bold_h2 (tkvs fkvs : List (String × Json)) (t : String)
    (ht : lookupKey tkvs "text" = some (Json.str t))
    (hf : lookupKey tkvs "formatting" = some (Json.obj fkvs))
    (hb : pyTruthy ((lookupKey fkvs "bold").getD Json.null) = true)
    (hi : pyTruthy ((lookupKey fkvs "italic").getD Json.null) = false)
    (hu : pyTruthy ((lookupKey fkvs "underline").getD Json.null) = false)
    (hs : pyTruthy ((lookupKey fkvs "strikethrough").getD Json.null) = false)
    (hlen : 50 < (pyStrip t).length) :
    process_text_item (Json.obj tkvs)
      = .ok ("<h2>" ++ escape_html (pyStrip t) ++ "</h2>") := by
  have hne : ¬(pyStrip t = "") := by
    intro he; rw [he] at hlen; simp at hlen
  have hemph := applyEmphasis_falsy fkvs (pyStrip t) hi hu hs
  simp [process_text_item, pyGet, pyStripJ, ht, hf, hb, hlen, hne, hemph]

/-- Witness for the amended C2 at a concrete 51-character bold node
carrying a `title` label (which the heading heuristic ignores). -/
theorem process_text_item_long_bold_h2_witness :
    process_text_item (Json.obj [("text", Json.str (String.mk (List.replicate 51 'b'))),
        ("formatting", Json.obj [("bold", Json.bool true)]), ("label", Json.str "title")])
      = .ok ("<h2>" ++ escape_html (pyStrip (String.mk (List.replicate 51 'b'))) ++ "</h2>") :=
  process_text_item_long_bold_h2
    [("text", Json.str (String.mk (List.replicate 51 'b'))),
      ("formatting", Json.obj [("bold", Json.bool true)]), ("label", Json.str "title")]
    [("bold", Json.bool true)]
    (String.mk (List.replicate 51 'b'))
    rfl rfl rfl rfl rfl rfl (by decide)

/-- C3: a bold text node of trimmed length exactly 50 renders as
`<p><strong>…</strong></p>` whatever its label (and whatever the other
formatting flags — the short-bold branch returns before the emphasis
chain), and one of trimmed length exactly 51 renders as an
`<h2>`-wrapped result. -/
theorem process_text_item_bold_boundary :
    (∀ (tkvs fkvs : List (String × Json)) (t : String),
      lookupKey tkvs "text" = some (Json.str t) →
      lookupKey tkvs "formatting" = some (Json.obj fkvs) →
      pyTruthy ((lookupKey fkvs "bold").getD Json.null) = true →
      (pyStrip t).length = 50 →
      process_text_item (Json.obj tkvs)
        = .ok ("<p><strong>" ++ escape_html (pyStrip t) ++ "</strong></p>")) ∧
    (∀ (tkvs fkvs : List (String × Json)) (t : String),
      lookupKey tkvs "text" = some (Json.str t) →
      lookupKey tkvs "formatting" = some (Json.obj fkvs) →
      pyTruthy ((lookupKey fkvs "bold").getD Json.null) = true →
      (pyStrip t).length = 51 →
      ∃ inner, process_text_item (Json.obj tkvs) = .ok ("<h2>" ++ inner ++ "</h2>")) := by
  constructor
  · intro tkvs fkvs t ht hf hb hlen
    have hne : ¬(pyStrip t = "") := by
      intro he; rw [he] at hlen; simp at hlen
    simp [process_text_item, pyGet, pyStripJ, ht, hf, hb, hne, hlen]
  · intro tkvs fkvs t ht hf hb hlen
    have hne : ¬(pyStrip t = "") := by
      intro he; rw [he] at hlen; simp at hlen
    obtain ⟨inner, hin⟩ := applyEmphasis_obj_ok fkvs (pyStrip t)
    refine ⟨inner, ?_⟩
    simp [process_text_item, pyGet, pyStripJ, ht, hf, hb, hne, hlen, hin]

/-- Witness for C3 at concrete bold nodes of 50 and 51 characters. -/
theorem process_text_item_bold_boundary_witness :
    process_text_item (Json.obj [("text", Json.str (String.mk (List.replicate 50 'c'))),
        ("formatting", Json.obj [("bold", Json.bool true)]), ("label", Json.str "heading")])
      = .ok ("<p><strong>" ++ escape_html (pyStrip (String.mk (List.replicate 50 'c')))
              ++ "</strong></p>") ∧
    ∃ inner, process_text_item (Json.obj [("text", Json.str (String.mk (List.replicate 51 'c'))),
        ("formatting", Json.obj [("bold", Json.bool true)])])
      = .ok ("<h2>" ++ inner ++ "</h2>") :=
  ⟨process_text_item_bold_boundary.1
      [("text", Json.str (String.mk (List.replicate 50 'c'))),
        ("formatting", Json.obj [("bold", Json.bool true)]), ("label", Json.str "heading")]
      [("bold", Json.bool true)]
      (String.mk (List.replicate 50 'c'))
      rfl rfl rfl (by decide),
   process_text_item_bold_boundary.2
      [("text", Json.str (String.mk (List.replicate 51 'c'))),
        ("formatting", Json.obj [("bold", Json.bool true)])]
      [("bold", Json.bool true)]
      (String.mk (List.replicate 51 'c'))
      rfl rfl rfl (by decide)⟩

/-! ### Claim C6 -/

/-- A table cell node carrying the five fields the cell loop consults. -/
def mkCell (txt : String) (ch rh : Bool) (r c : Int) : Json :=
  Json.obj [("text", Json.str txt), ("column_header", Json.bool ch),
    ("row_header", Json.bool rh), ("row_span", Json.num r), ("col_span", Json.num c)]

/-- C6: a cell emits a `rowspan` attribute exactly when `row_span > 1`
and a `colspan` attribute exactly when `col_span > 1`, rowspan first,
and a cell with both spans equal to 1 is a plain `<td>`/`<th>` with no
span attributes (the attribute strings below are empty exactly when
the corresponding condition fails). -/
theorem renderCell_span_attrs (txt : String) (ch rh : Bool) (r c : Int) :
    renderCell (mkCell txt ch rh r c)
      = .ok ("    <" ++ (if ch || rh then "th" else "td")
          ++ ((if 1 < r then " rowspan=\"" ++ toString r ++ "\"" else "")
            ++ (if 1 < c then " colspan=\"" ++ toString c ++ "\"" else ""))
          ++ ">" ++ escape_html (pyStrip txt) ++ "</"
          ++ (if ch || rh then "th" else "td") ++ ">") := by
  by_cases hr : 1 < r <;> by_cases hc : 1 < c <;> cases ch <;> cases rh <;>
    simp [renderCell, mkCell, pyGet, lookupKey, pyStripJ, pyTruthy, pyGtOne,
      pyStr, pyRepr, hr, hc]

/-! ### Claim C7 -/

/-- C7: a picture node without a `data` payload renders the styled
missing-image placeholder (not an image element); one with payload `p`
renders an `<img>` whose source is `data:image/` ++ format ++
`;base64,` ++ p, the format defaulting to `png` when absent. -/
theorem process_picture_item_cases :
    (∀ (pkvs : List (String × Json)),
      lookupKey pkvs "data" = none →
      process_picture_item (Json.obj pkvs)
        = .ok "<div class=\"image-placeholder\">[Missing Image]</div>") ∧
    (∀ (pkvs : List (String × Json)) (p f : String),
      lookupKey pkvs "data" = some (Json.str p) →
      lookupKey pkvs "format" = some (Json.str f) →
      process_picture_item (Json.obj pkvs)
        = .ok ("<img src=\"data:image/" ++ f ++ ";base64," ++ p
            ++ "\" alt=\"Embedded Image\" style=\"max-width:100%; height:auto; margin:10px 0;\" />")) ∧
    (∀ (pkvs : List (String × Json)) (p : String),
      lookupKey pkvs "data" = some (Json.str p) →
      lookupKey pkvs "format" = none →
      process_picture_item (Json.obj pkvs)
        = .ok ("<img src=\"data:image/" ++ "png" ++ ";base64," ++ p
            ++ "\" alt=\"Embedded Image\" style=\"max-width:100%; height:auto; margin:10px 0;\" />")) := by
  refine ⟨?_, ?_, ?_⟩
  · intro pkvs h
    simp [process_picture_item, pyContains, h]
  · intro pkvs p f hd hf
    simp [process_picture_item, pyContains, pySubscriptStr, pyGet, pyStr, hd, hf]
  · intro pkvs p hd hf
    simp [process_picture_item, pyContains, pySubscriptStr, pyGet, pyStr, hd, hf]

/-- Witness for C7: a payload-less picture node, and the spec's
example payload `QQ==` with format `jpeg` and with no format. -/
theorem process_picture_item_cases_witness :
    process_picture_item (Json.obj [("label", Json.str "picture")])
      = .ok "<div class=\"image-placeholder\">[Missing Image]</div>" ∧
    process_picture_item (Json.obj [("data", Json.str "QQ=="), ("format", Json.str "jpeg")])
      = .ok ("<img src=\"data:image/" ++ "jpeg" ++ ";base64," ++ "QQ=="
          ++ "\" alt=\"Embedded Image\" style=\"max-width:100%; height:auto; margin:10px 0;\" />") ∧
    process_picture_item (Json.obj [("data", Json.str "QQ==")])
      = .ok ("<img src=\"data:image/" ++ "png" ++ ";base64," ++ "QQ=="
          ++ "\" alt=\"Embedded Image\" style=\"max-width:100%; height:auto; margin:10px 0;\" />") :=
  ⟨process_picture_item_cases.1 [("label", Json.str "picture")] rfl,
   process_picture_item_cases.2.1 [("data", Json.str "QQ=="), ("format", Json.str "jpeg")]
     "QQ==" "jpeg" rfl rfl,
   process_picture_item_cases.2.2 [("data", Json.str "QQ==")] "QQ==" rfl rfl⟩

/-! ### Claim C8 -/

/-- C8: a document without a `body` key, or whose body object lacks
`children`, renders to the empty string rather than an error; a table
node without `data`, with `data` lacking `grid`, or with an empty
grid, yields the empty fragment rather than an error. -/
theorem degraded_inputs_empty_output :
    (∀ (kvs : List (String × Json)),
      lookupKey kvs "body" = none →
      json_to_html (Json.obj kvs) = .ok "") ∧
    (∀ (kvs bkvs : List (String × Json)),
      lookupKey kvs "body" = some (Json.obj bkvs) →
      lookupKey bkvs "children" = none →
      json_to_html (Json.obj kvs) = .ok "") ∧
    (∀ (tkvs : List (String × Json)),
      lookupKey tkvs "data" = none →
      process_table_item (Json.obj tkvs) = .ok "") ∧
    (∀ (tkvs dkvs : List (String × Json)),
      lookupKey tkvs "data" = some (Json.obj dkvs) →
      lookupKey dkvs "grid" = none →
      process_table_item (Json.obj tkvs) = .ok "") ∧
    (∀ (tkvs dkvs : List (String × Json)),
      lookupKey tkvs "data" = some (Json.obj dkvs) →
      lookupKey dkvs "grid" = some (Json.arr []) →
      process_table_item (Json.obj tkvs) = .ok "") := by
  refine ⟨?_, ?_, ?_, ?_, ?_⟩
  · intro kvs h
    simp [json_to_html, bodyChildren, pyContains, bodyLoop, h, String.intercalate]
  · intro kvs bkvs hb hc
    simp [json_to_html, bodyChildren, pyContains, pySubscriptStr, bodyLoop, hb, hc,
      String.intercalate]
  · intro tkvs h
    simp [process_table_item, pyContains, h]
  · intro tkvs dkvs hd hg
    simp [process_table_item, pyContains, pySubscriptStr, hd, hg]
  · intro tkvs dkvs hd hg
    simp [process_table_item, pyContains, pySubscriptStr, pyTruthy, hd, hg]

/-- Witness for C8 at concrete degenerate documents and tables. -/
theorem degraded_inputs_empty_output_witness :
    json_to_html (Json.obj [("texts", Json.arr [])]) = .ok "" ∧
    json_to_html (Json.obj [("body", Json.obj [("label", Json.str "b")])]) = .ok "" ∧
    process_table_item (Json.obj [("label", Json.str "t")]) = .ok "" ∧
    process_table_item (Json.obj [("data", Json.obj [])]) = .ok "" ∧
    process_table_item (Json.obj [("data", Json.obj [("grid", Json.arr [])])]) = .ok "" :=
  ⟨degraded_inputs_empty_output.1 [("texts", Json.arr [])] rfl,
   degraded_inputs_empty_output.2.1 [("body", Json.obj [("label", Json.str "b")])]
     [("label", Json.str "b")] rfl rfl,
   degraded_inputs_empty_output.2.2.1 [("label", Json.str "t")] rfl,
   degraded_inputs_empty_output.2.2.2.1 [("data", Json.obj [])] [] rfl rfl,
   degraded_inputs_empty_output.2.2.2.2 [("data", Json.obj [("grid", Json.arr [])])]
     [("grid", Json.arr [])] rfl rfl⟩

/-! ### Claim C1 -/

/-- C1 is false as stated: the pointer `#/texts/x` applies the
non-numeric segment `x` to the sequence `texts`, which raises
`TypeError` — an error the dispatch loop's `except (KeyError,
IndexError)` clause does not catch — so it propagates past
`json_to_html` instead of being skipped. -/
theorem json_to_html_typeerror_counterexample :
    json_to_html (Json.obj [("body", Json.obj [("children",
        Json.arr [Json.obj [("$ref", Json.str "#/texts/x")]])]),
      ("texts", Json.arr [])]) = .error .typeError :=
  rfl

/-- C1 amended: a body entry whose pointer resolution raises a lookup
error — `IndexError` from a numeric index out of bounds, or `KeyError`
from an absent key (including a numeric segment applied to a mapping)
— is caught by the dispatch loop: it produces no fragment and the loop
continues unchanged with the remaining entries.  Wrong-collection-shape
failures (such as a non-numeric segment applied to a sequence) raise
`TypeError`, which is not caught and propagates. -/
theorem bodyLoop_skips_unresolved (doc : Json) (kvs : List (String × Json))
    (rest : List Json) (acc : List String) (s : String)
    (href : lookupKey kvs "$ref" = some (Json.str s))
    (hres : resolve_reference s doc = .error .keyError ∨
            resolve_reference s doc = .error .indexError) :
    bodyLoop doc (Json.obj kvs :: rest) acc = bodyLoop doc rest acc := by
  have hfrag : childFragment doc (Json.obj kvs) = .ok none := by
    rcases hres with h | h <;>
      simp [childFragment, pyContains, pySubscriptStr, tryDispatch, href, h]
  simp [bodyLoop, hfrag]

/-- Witness for the amended C1: the spec's own scenario — a pointer
`#/texts/99` into a one-element `texts` collection (`IndexError`), and
a pointer to an absent collection (`KeyError`); both entries leave the
loop's outcome unchanged. -/
theorem bodyLoop_skips_unresolved_witness :
    bodyLoop (Json.obj [("texts", Json.arr [Json.obj [("text", Json.str "hi")]])])
        [Json.obj [("$ref", Json.str "#/texts/99")]] []
      = bodyLoop (Json.obj [("texts", Json.arr [Json.obj [("text", Json.str "hi")]])]) [] [] ∧
    bodyLoop (Json.obj [("texts", Json.arr [])])
        [Json.obj [("$ref", Json.str "#/pictures/0")]] ["<p>x</p>"]
      = bodyLoop (Json.obj [("texts", Json.arr [])]) [] ["<p>x</p>"] :=
  ⟨bodyLoop_skips_unresolved
      (Json.obj [("texts", Json.arr [Json.obj [("text", Json.str "hi")]])])
      [("$ref", Json.str "#/texts/99")] [] [] "#/texts/99" rfl (Or.inr rfl),
   bodyLoop_skips_unresolved (Json.obj [("texts", Json.arr [])])
      [("$ref", Json.str "#/pictures/0")] [] ["<p>x</p>"] "#/pictures/0" rfl (Or.inl rfl)⟩

/-! ### Claim C10 -/

/-- C10: a body entry that is an object without a `$ref` field is
silently skipped by the dispatch loop — it contributes no fragment and
no error, and the loop's result on any surrounding entries is exactly
the result without that entry. -/
theorem bodyLoop_skips_refless (doc : Json) (kvs : List (String × Json))
    (h : lookupKey kvs "$ref" = none) :
    ∀ (pre post : List Json) (acc : List String),
      bodyLoop doc (pre ++ Json.obj kvs :: post) acc = bodyLoop doc (pre ++ post) acc := by
  have hfrag : childFragment doc (Json.obj kvs) = .ok none := by
    simp [childFragment, pyContains, h]
  intro pre
  induction pre with
  | nil => intro post acc; simp [bodyLoop, hfrag]
  | cons p pre ih =>
    intro post acc
    show bodyLoop doc (p :: (pre ++ Json.obj kvs :: post)) acc
        = bodyLoop doc (p :: (pre ++ post)) acc
    unfold bodyLoop
    cases hcf : childFragment doc p with
    | error e => simp
    | ok r =>
      cases r with
      | none => exact ih post acc
      | some s => exact ih post (acc ++ [s])

/-- Witness for C10: a refless entry between two text pointers leaves
the loop's outcome unchanged. -/
theorem bodyLoop_skips_refless_witness :
    bodyLoop (Json.obj [("texts", Json.arr [Json.obj [("text", Json.str "a")]])])
        [Json.obj [("$ref", Json.str "#/texts/0")],
          Json.obj [("name", Json.str "group")],
          Json.obj [("$ref", Json.str "#/texts/0")]] []
      = bodyLoop (Json.obj [("texts", Json.arr [Json.obj [("text", Json.str "a")]])])
        [Json.obj [("$ref", Json.str "#/texts/0")],
          Json.obj [("$ref", Json.str "#/texts/0")]] [] :=
  bodyLoop_skips_refless
    (Json.obj [("texts", Json.arr [Json.obj [("text", Json.str "a")]])])
    [("name", Json.str "group")] rfl
    [Json.obj [("$ref", Json.str "#/texts/0")]]
    [Json.obj [("$ref", Json.str "#/texts/0")]] []

/-! ### Claim C4 -/

theorem bodyLoop_eq_spec (doc : Json) :
    ∀ (children : List Json) (acc : List String),
      bodyLoop doc children acc
        = (bodyFragmentsSpec doc children).map (fun l => acc ++ l) := by
  intro children
  induction children with
  | nil => intro acc; simp [bodyLoop, bodyFragmentsSpec, Except.map]
  | cons child rest ih =>
    intro acc
    unfold bodyLoop bodyFragmentsSpec
    cases hcf : childFragment doc child with
    | error e => simp [Except.map]
    | ok r =>
      cases r with
      | none => exact ih acc
      | some s =>
        simp only [ih (acc ++ [s])]
        cases hspec : bodyFragmentsSpec doc rest with
        | error e => simp [Except.map]
        | ok others => simp [Except.map]

/-- C4: whenever `json_to_html` succeeds, its output is exactly the
non-empty fragments of the body's pointer list (`bodyFragmentsSpec`
produces them child by child, in body order) joined with a single
newline: skipped and empty entries are dropped and nothing is
reordered. -/
theorem json_to_html_order_preserving (doc : Json) :
    json_to_html doc = (bodyFragments doc).map
      (fun parts => String.intercalate "\n" (parts.filter (fun s => !s.isEmpty))) := by
  unfold json_to_html bodyFragments
  cases hbc : bodyChildren doc with
  | error e => simp [Except.map]
  | ok children =>
    simp only [bodyLoop_eq_spec doc children []]
    cases hspec : bodyFragmentsSpec doc children with
    | error e => simp [Except.map]
    | ok parts => simp [Except.map]

end ConvDocling
